import Mathlib

/-!
Verification of the chronological rating-and-backtest engine of the
hornets-buzz repository.  Each Python source function is shallow-embedded
as a Lean definition (floats become exact `ℚ` or `ℝ` arithmetic, Python
lists become `List`, dicts keyed by team id become total maps `ℕ → _`),
and the specification's claims are settled as theorems about those
definitions.
-/

namespace BuzzingRigorous

/-- Embedding of `wilson_confidence_interval` from
`scripts/buzzing_rigorous.py`.  The Python default `z = 1.96` is kept as an
explicit argument.  `math.sqrt` becomes `Real.sqrt`. -/
noncomputable def wilson_confidence_interval (successes trials : ℕ) (z : ℝ) : ℝ × ℝ :=
  if trials = 0 then (0.0, 1.0)
  else
    let p : ℝ := (successes : ℝ) / (trials : ℝ)
    let denominator : ℝ := 1 + z ^ 2 / (trials : ℝ)
    let center : ℝ := (p + z ^ 2 / (2 * (trials : ℝ))) / denominator
    let margin : ℝ := (z / denominator) *
      Real.sqrt (p * (1 - p) / (trials : ℝ) + z ^ 2 / (4 * (trials : ℝ) ^ 2))
    (max 0 (center - margin), min 1 (center + margin))

/-- Embedding of `kelly_criterion` from `scripts/buzzing_rigorous.py`.
All arithmetic there is rational, so the embedding is over `ℚ`.  The
Python default `odds = 1.91` is kept as an explicit argument. -/
def kelly_criterion (win_prob : ℚ) (odds : ℚ) : ℚ :=
  let implied_prob := 1 / odds
  let edge := win_prob - implied_prob
  if edge ≤ 0 then 0
  else
    let b := odds - 1
    let q := 1 - win_prob
    let kelly := (b * win_prob - q) / b
    max 0 (kelly / 2)

end BuzzingRigorous

namespace BacktestLeague

/-- The two fields of the per-team stats dict that
`scripts/backtest_league.py`'s `predict_margin` reads (the dict defaults
`net_rating = 0`, `pace = 100` are the callers' concern). -/
structure TeamStats where
  net_rating : ℚ
  pace : ℚ

/-- The additive part of `predict_margin` in `scripts/backtest_league.py`:
net-rating differential plus home-court advantage plus elite-opponent
penalty, before the pace correction and the clamp. -/
def base_prediction (home_team_stats away_team_stats : TeamStats) : ℚ :=
  let home_nr := home_team_stats.net_rating
  let away_nr := away_team_stats.net_rating
  let nr_diff := home_nr - away_nr
  let home_advantage : ℚ := 2.5
  let elite_penalty : ℚ := if 6.0 ≤ away_nr then -2.0 else 0
  nr_diff + home_advantage + elite_penalty

/-- The pace multiplier of `predict_margin` in `scripts/backtest_league.py`:
`1 - max(0, (combined_pace - 200) * 0.02)`. -/
def pace_multiplier (home_team_stats away_team_stats : TeamStats) : ℚ :=
  let home_pace := home_team_stats.pace
  let away_pace := away_team_stats.pace
  let combined_pace := home_pace + away_pace
  let pace_deviation := combined_pace - 200
  1 - max 0 (pace_deviation * 0.02)

/-- Embedding of `predict_margin` from `scripts/backtest_league.py`:
base prediction, multiplied by the pace correction, clamped to `[-15, 15]`
by `max(-15, min(15, _))`. -/
def predict_margin (home_team_stats away_team_stats : TeamStats) : ℚ :=
  let predicted_margin :=
    base_prediction home_team_stats away_team_stats *
      pace_multiplier home_team_stats away_team_stats
  max (-15) (min 15 predicted_margin)

end BacktestLeague

namespace BacktestModel

/-- Model parameter from `scripts/backtest_model.py`. -/
def ELO_K_FACTOR : ℝ := 20

/-- Model parameter from `scripts/backtest_model.py`. -/
def ELO_HOME_ADVANTAGE : ℝ := 70

/-- Model parameter from `scripts/backtest_model.py`. -/
def ELO_FATIGUE_PENALTY : ℝ := 46

/-- Model parameter from `scripts/backtest_model.py`. -/
def ELO_INITIAL : ℝ := 1500

/-- Model parameter from `scripts/backtest_model.py`. -/
def ELO_TO_SPREAD : ℝ := 28

/-- Model parameter from `scripts/backtest_model.py`. -/
def NR_HOME_ADVANTAGE : ℝ := 2.5

/-- Model parameter from `scripts/backtest_model.py`. -/
def NR_FATIGUE_PENALTY : ℝ := 3.0

/-- Window weight `WINDOW_WEIGHTS['last4']` from `scripts/backtest_model.py`. -/
def W_LAST4 : ℝ := 0.40

/-- Window weight `WINDOW_WEIGHTS['last7']` from `scripts/backtest_model.py`. -/
def W_LAST7 : ℝ := 0.30

/-- Window weight `WINDOW_WEIGHTS['last10']` from `scripts/backtest_model.py`. -/
def W_LAST10 : ℝ := 0.20

/-- Window weight `WINDOW_WEIGHTS['season']` from `scripts/backtest_model.py`. -/
def W_SEASON : ℝ := 0.10

/-- Embedding of `elo_win_probability` (538 logistic formula) from
`scripts/backtest_model.py`. -/
noncomputable def elo_win_probability (elo_diff : ℝ) : ℝ :=
  1.0 / (1.0 + (10 : ℝ) ^ (-elo_diff / 400))

/-- Embedding of `elo_to_spread` from `scripts/backtest_model.py`. -/
noncomputable def elo_to_spread (elo_diff : ℝ) : ℝ :=
  elo_diff / ELO_TO_SPREAD

/-- The single Elo shift computed inside `update_elo` in
`scripts/backtest_model.py`: home-court-adjusted Elo difference, expected
win probability, 538 margin-of-victory multiplier, K-factor. -/
noncomputable def elo_shift (winner_elo loser_elo : ℝ) (margin : ℤ)
    (winner_home : Bool) : ℝ :=
  let elo_diff :=
    if winner_home then winner_elo - loser_elo + ELO_HOME_ADVANTAGE
    else winner_elo - loser_elo - ELO_HOME_ADVANTAGE
  let expected := elo_win_probability elo_diff
  let mov_mult := (|(margin : ℝ)| + 3) ^ (0.8 : ℝ) / (7.5 + 0.006 * |elo_diff|)
  ELO_K_FACTOR * mov_mult * (1 - expected)

/-- Embedding of `update_elo` from `scripts/backtest_model.py`: the winner
gains and the loser loses the single shift `elo_shift`. -/
noncomputable def update_elo (winner_elo loser_elo : ℝ) (margin : ℤ)
    (winner_home : Bool) : ℝ × ℝ :=
  (winner_elo + elo_shift winner_elo loser_elo margin winner_home,
   loser_elo - elo_shift winner_elo loser_elo margin winner_home)

/-- One entry of a `TeamState.games` history list in
`scripts/backtest_model.py`: a dict `{'net_rating': float, 'date': str}`.
Dates are day numbers (`ℤ`), which is what the `%Y-%m-%d` parsing and the
`.days` subtraction in the source compute with. -/
structure GameEntry where
  net_rating : ℝ
  date : ℤ

/-- Embedding of the `TeamState` dataclass in `scripts/backtest_model.py`. -/
structure TeamState where
  team_id : ℕ
  name : String
  elo : ℝ := ELO_INITIAL
  games : List GameEntry := []
  last_game_date : Option ℤ := none

/-- Embedding of `TeamState.get_rolling_net_rating` from
`scripts/backtest_model.py`.  `games[-window:]` is the last `window`
entries; Python's `games[-0:]` is the whole list, hence the `window = 0`
case. -/
noncomputable def TeamState.get_rolling_net_rating (ts : TeamState) (window : ℕ) : ℝ :=
  let recent :=
    if window ≤ ts.games.length then
      if window = 0 then ts.games else ts.games.drop (ts.games.length - window)
    else ts.games
  if recent.isEmpty then 0.0
  else (recent.map (·.net_rating)).sum / (recent.length : ℝ)

/-- Embedding of `TeamState.get_weighted_net_rating` from
`scripts/backtest_model.py`. -/
noncomputable def TeamState.get_weighted_net_rating (ts : TeamState) : ℝ :=
  let nr4 := ts.get_rolling_net_rating 4
  let nr7 := ts.get_rolling_net_rating 7
  let nr10 := ts.get_rolling_net_rating 10
  let nr_season := ts.get_rolling_net_rating ts.games.length
  nr4 * W_LAST4 + nr7 * W_LAST7 + nr10 * W_LAST10 + nr_season * W_SEASON

/-- Embedding of `TeamState.is_back_to_back` from
`scripts/backtest_model.py`: exactly one day since the previous game (the
`except` branch of the source guards string parsing, which day-number
dates make impossible). -/
def TeamState.is_back_to_back (ts : TeamState) (game_date : ℤ) : Bool :=
  match ts.last_game_date with
  | none => false
  | some last => game_date - last == 1

/-- One entry of the game list built by `fetch_nba_games` in
`scripts/backtest_model.py`, as consumed by `run_backtest`. -/
structure Game where
  game_id : String
  date : ℤ
  home_team_id : ℕ
  away_team_id : ℕ
  home_team : String
  away_team : String
  home_score : ℤ
  away_score : ℤ
  home_wl : String

/-- Embedding of the `Prediction` dataclass in `scripts/backtest_model.py`. -/
structure Prediction where
  game_id : String
  date : ℤ
  home_team : String
  away_team : String
  spread : ℝ
  elo_pred_spread : ℝ
  nr_pred_spread : ℝ
  hybrid_pred_spread : ℝ
  home_score : ℤ
  away_score : ℤ
  actual_margin : ℤ
  elo_error : ℝ
  nr_error : ℝ
  hybrid_error : ℝ
  elo_covered : Option Bool
  nr_covered : Option Bool
  hybrid_covered : Option Bool

/-- The mutable state of `run_backtest` in `scripts/backtest_model.py`:
the `team_states` dict (a total map; the source initialises one entry per
NBA team id and skips games whose ids are absent) and the accumulated
`predictions` list. -/
structure BacktestState where
  team_states : ℕ → TeamState
  predictions : List Prediction

/-- The prediction record built in the body of `run_backtest`
(`scripts/backtest_model.py`) for one game, reading only the two
`TeamState` values passed to it. -/
noncomputable def make_prediction (home_state away_state : TeamState)
    (game : Game) : Prediction :=
  let elo_diff0 := home_state.elo - away_state.elo + ELO_HOME_ADVANTAGE
  let elo_diff1 :=
    if home_state.is_back_to_back game.date then elo_diff0 - ELO_FATIGUE_PENALTY
    else elo_diff0
  let elo_diff :=
    if away_state.is_back_to_back game.date then elo_diff1 + ELO_FATIGUE_PENALTY
    else elo_diff1
  let elo_pred_spread := elo_to_spread elo_diff
  let home_nr := home_state.get_weighted_net_rating
  let away_nr := away_state.get_weighted_net_rating
  let nr_diff0 := home_nr - away_nr + NR_HOME_ADVANTAGE
  let nr_diff1 :=
    if home_state.is_back_to_back game.date then nr_diff0 - NR_FATIGUE_PENALTY
    else nr_diff0
  let nr_diff :=
    if away_state.is_back_to_back game.date then nr_diff1 + NR_FATIGUE_PENALTY
    else nr_diff1
  let nr_pred_spread := nr_diff
  let hybrid_pred_spread := 0.4 * elo_pred_spread + 0.6 * nr_pred_spread
  let estimated_spread := elo_pred_spread * 0.8
  let actual_margin := game.home_score - game.away_score
  { game_id := game.game_id
    date := game.date
    home_team := game.home_team
    away_team := game.away_team
    spread := estimated_spread
    elo_pred_spread := elo_pred_spread
    nr_pred_spread := nr_pred_spread
    hybrid_pred_spread := hybrid_pred_spread
    home_score := game.home_score
    away_score := game.away_score
    actual_margin := actual_margin
    elo_error := |elo_pred_spread - (actual_margin : ℝ)|
    nr_error := |nr_pred_spread - (actual_margin : ℝ)|
    hybrid_error := |hybrid_pred_spread - (actual_margin : ℝ)|
    elo_covered :=
      if actual_margin ≠ 0 then
        some (decide (0 < elo_pred_spread) == decide ((0 : ℤ) < actual_margin))
      else none
    nr_covered :=
      if actual_margin ≠ 0 then
        some (decide (0 < nr_pred_spread) == decide ((0 : ℤ) < actual_margin))
      else none
    hybrid_covered :=
      if actual_margin ≠ 0 then
        some (decide (0 < hybrid_pred_spread) == decide ((0 : ℤ) < actual_margin))
      else none }

/-- The new Elo pair `(home, away)` after one game in `run_backtest`
(`scripts/backtest_model.py`): the `margin > 0` branch updates home as the
winner at home, the other branch updates away as the winner on the road
with margin `-margin`. -/
noncomputable def fold_elo (home_elo away_elo : ℝ) (margin : ℤ) : ℝ × ℝ :=
  if 0 < margin then update_elo home_elo away_elo margin true
  else
    let p := update_elo away_elo home_elo (-margin) false
    (p.2, p.1)

/-- One iteration of the `for` loop of `run_backtest` in
`scripts/backtest_model.py`.  Teams with fewer than 4 games of history
are folded into state (with the placeholder net rating `margin / 2`) but
produce no prediction; otherwise the prediction is created from the
pre-game states first, and only afterwards the game's result is folded
into both states. -/
noncomputable def step (s : BacktestState) (game : Game) : BacktestState :=
  let home_id := game.home_team_id
  let away_id := game.away_team_id
  let home_state := s.team_states home_id
  let away_state := s.team_states away_id
  if home_state.games.length < 4 ∨ away_state.games.length < 4 then
    let margin := game.home_score - game.away_score
    let elos := fold_elo home_state.elo away_state.elo margin
    let home_state' : TeamState :=
      { home_state with
        elo := elos.1
        games := home_state.games ++ [⟨(margin : ℝ) / 2, game.date⟩]
        last_game_date := some game.date }
    let away_state' : TeamState :=
      { away_state with
        elo := elos.2
        games := away_state.games ++ [⟨-(margin : ℝ) / 2, game.date⟩]
        last_game_date := some game.date }
    { s with team_states := fun t =>
        if t = home_id then home_state'
        else if t = away_id then away_state'
        else s.team_states t }
  else
    let pred := make_prediction home_state away_state game
    let margin := game.home_score - game.away_score
    let elos := fold_elo home_state.elo away_state.elo margin
    let home_state' : TeamState :=
      { home_state with
        elo := elos.1
        games := home_state.games ++ [⟨(margin : ℝ), game.date⟩]
        last_game_date := some game.date }
    let away_state' : TeamState :=
      { away_state with
        elo := elos.2
        games := away_state.games ++ [⟨-(margin : ℝ), game.date⟩]
        last_game_date := some game.date }
    { team_states := fun t =>
        if t = home_id then home_state'
        else if t = away_id then away_state'
        else s.team_states t
      predictions := s.predictions ++ [pred] }

/-- The initial `team_states` dict of `run_backtest` in
`scripts/backtest_model.py`: every team id starts at `ELO_INITIAL` with an
empty history (team nicknames come from the static team table and play no
computational role, so the map is total over ids). -/
def initial_state : BacktestState :=
  { team_states := fun id =>
      { team_id := id, name := "", elo := ELO_INITIAL, games := [],
        last_game_date := none }
    predictions := [] }

/-- Embedding of the replay loop of `run_backtest` in
`scripts/backtest_model.py` (the metric aggregation after the loop
consumes the finished prediction list and is not part of the state
machine). -/
noncomputable def run_backtest (games : List Game) : BacktestState :=
  games.foldl step initial_state

/-- The predictions emitted by one loop iteration of `run_backtest`
(`scripts/backtest_model.py`): none while either team has fewer than 4
games of history, otherwise the single record built from the two pre-game
`TeamState` values. -/
noncomputable def emitted (s : BacktestState) (game : Game) : List Prediction :=
  if (s.team_states game.home_team_id).games.length < 4 ∨
      (s.team_states game.away_team_id).games.length < 4 then []
  else [make_prediction (s.team_states game.home_team_id)
          (s.team_states game.away_team_id) game]

end BacktestModel

namespace Backtest

/-- Model parameter from `scripts/backtest.py`. -/
def ELO_INITIAL : ℝ := 1500

/-- Model parameter from `scripts/backtest.py`. -/
def ELO_HOME_ADVANTAGE : ℝ := 70

/-- Model parameter from `scripts/backtest.py`. -/
def ELO_TO_SPREAD : ℝ := 28

/-- Model parameter from `scripts/backtest.py`. -/
def NR_HOME_ADVANTAGE : ℝ := 2.5

/-- Blend weight from `scripts/backtest.py`. -/
def ELO_WEIGHT : ℝ := 0.55

/-- Blend weight from `scripts/backtest.py`. -/
def NR_WEIGHT : ℝ := 0.45

/-- Window weight `WINDOW_WEIGHTS["last4"]` from `scripts/backtest.py`. -/
def W_LAST4 : ℝ := 0.40

/-- Window weight `WINDOW_WEIGHTS["last7"]` from `scripts/backtest.py`. -/
def W_LAST7 : ℝ := 0.30

/-- Window weight `WINDOW_WEIGHTS["last10"]` from `scripts/backtest.py`. -/
def W_LAST10 : ℝ := 0.20

/-- Window weight `WINDOW_WEIGHTS["season"]` from `scripts/backtest.py`. -/
def W_SEASON : ℝ := 0.10

/-- One entry of a `TeamState.games` history list in `scripts/backtest.py`:
a dict with the game's points for, points against and net rating. -/
structure GameEntry where
  pts_for : ℤ
  pts_against : ℤ
  net_rating : ℤ

/-- Embedding of the `TeamState` dataclass in `scripts/backtest.py`. -/
structure TeamState where
  team_id : ℕ
  team_name : String
  wins : ℕ := 0
  losses : ℕ := 0
  total_points_for : ℤ := 0
  total_points_against : ℤ := 0
  games : List GameEntry := []

/-- Embedding of the `TeamState.point_diff` property in
`scripts/backtest.py`. -/
noncomputable def TeamState.point_diff (ts : TeamState) : ℝ :=
  let games_played := ts.wins + ts.losses
  if games_played = 0 then 0
  else ((ts.total_points_for : ℝ) - (ts.total_points_against : ℝ)) /
    (games_played : ℝ)

/-- Embedding of the `TeamState.net_rating` property in
`scripts/backtest.py` (a direct alias of `point_diff`). -/
noncomputable def TeamState.net_rating (ts : TeamState) : ℝ :=
  ts.point_diff

/-- Embedding of `TeamState.get_rolling_net_rating` from
`scripts/backtest.py` (same list slicing as in the model variant,
including Python's `games[-0:]` being the whole list). -/
noncomputable def TeamState.get_rolling_net_rating (ts : TeamState)
    (window : ℕ) : ℝ :=
  let recent :=
    if window ≤ ts.games.length then
      if window = 0 then ts.games else ts.games.drop (ts.games.length - window)
    else ts.games
  if recent.isEmpty then 0
  else ((recent.map (·.net_rating)).sum : ℝ) / (recent.length : ℝ)

/-- The win-percentage Elo component computed inline in `TeamState.get_elo`
(`scripts/backtest.py`): `1200` at or below 0%, `1800` at or above 100%,
and the logistic transform `1504.6 - 450*log10(1/win_pct - 1)` strictly in
between.  `math.log10` becomes `Real.logb 10`. -/
noncomputable def elo_from_win_pct (win_pct : ℝ) : ℝ :=
  if win_pct ≤ 0 then 1200
  else if 1 ≤ win_pct then 1800
  else 1504.6 - 450 * Real.logb 10 (1 / win_pct - 1)

/-- Embedding of `TeamState.get_elo` from `scripts/backtest.py`: blend of
the win-percentage Elo and the point-differential Elo, weighted towards
the former early in the season. -/
noncomputable def TeamState.get_elo (ts : TeamState) : ℝ :=
  let games_played := ts.wins + ts.losses
  if games_played = 0 then ELO_INITIAL
  else
    let win_pct : ℝ := (ts.wins : ℝ) / (games_played : ℝ)
    let elo_from_win_pct := elo_from_win_pct win_pct
    let total_point_diff : ℝ :=
      (ts.total_points_for : ℝ) - (ts.total_points_against : ℝ)
    let elo_from_point_diff :=
      ELO_INITIAL + total_point_diff / max 1 (games_played : ℝ) * 10
    let win_pct_weight := max 0.3 (1 - (games_played : ℝ) / 82)
    win_pct_weight * elo_from_win_pct +
      (1 - win_pct_weight) * elo_from_point_diff

/-- Embedding of `estimate_spread_from_teams` from `scripts/backtest.py`. -/
noncomputable def estimate_spread_from_teams (home_elo away_elo : ℝ) : ℝ :=
  let elo_diff := home_elo - away_elo + ELO_HOME_ADVANTAGE;
  -elo_diff / ELO_TO_SPREAD

/-- Embedding of `predict_spread` from `scripts/backtest.py`: returns
`(predicted_margin, elo_component, nr_component)` from the home team's
perspective.  Note the source applies no clamp to the blended value. -/
noncomputable def predict_spread (home_team away_team : TeamState) :
    ℝ × ℝ × ℝ :=
  let home_elo := home_team.get_elo
  let away_elo := away_team.get_elo
  let elo_diff := home_elo - away_elo + ELO_HOME_ADVANTAGE
  let elo_prediction := elo_diff / ELO_TO_SPREAD
  let home_nr :=
    home_team.get_rolling_net_rating 4 * W_LAST4 +
    home_team.get_rolling_net_rating 7 * W_LAST7 +
    home_team.get_rolling_net_rating 10 * W_LAST10 +
    home_team.net_rating * W_SEASON
  let away_nr :=
    away_team.get_rolling_net_rating 4 * W_LAST4 +
    away_team.get_rolling_net_rating 7 * W_LAST7 +
    away_team.get_rolling_net_rating 10 * W_LAST10 +
    away_team.net_rating * W_SEASON
  let nr_diff := home_nr - away_nr + NR_HOME_ADVANTAGE
  let nr_prediction := nr_diff
  let predicted_margin := elo_prediction * ELO_WEIGHT + nr_prediction * NR_WEIGHT
  (predicted_margin, elo_prediction, nr_prediction)

/-- One entry of the `complete_games` list in `scripts/backtest.py`'s
`run_backtest`. -/
structure Game where
  game_id : String
  date : String
  home_team_id : ℕ
  away_team_id : ℕ
  home_abbrev : String
  away_abbrev : String
  home_pts : ℤ
  away_pts : ℤ

/-- Python's one-decimal `round` used on the recorded floats in
`scripts/backtest.py` (Python rounds exact halves to even; those
measure-zero ties are immaterial to every claim and are rounded up here). -/
noncomputable def round1 (x : ℝ) : ℝ :=
  (⌊x * 10 + 1 / 2⌋ : ℝ) / 10

/-- Embedding of the `BacktestResult` dataclass in `scripts/backtest.py`. -/
structure BacktestResult where
  game_id : String
  date : String
  home_team : String
  away_team : String
  home_score : ℤ
  away_score : ℤ
  actual_margin : ℤ
  closing_spread : ℝ
  predicted_margin : ℝ
  elo_component : ℝ
  nr_component : ℝ
  actual_winner : String
  predicted_winner : String
  winner_correct : Bool
  actual_ats : String
  predicted_ats : String
  ats_correct : Bool
  margin_error : ℝ
  spread_error : ℝ

/-- The mutable state threaded through the game loop of `run_backtest` in
`scripts/backtest.py`: the lazily-created `team_states` dict (a total map
into default states), the `spread_cache` dict, the results list and the
two spread-source counters of `spread_metadata`. -/
structure BacktestState where
  team_states : ℕ → TeamState
  spread_cache : String → Option ℝ
  results : List BacktestResult
  real_spreads : ℕ
  estimated_spreads : ℕ

/-- The closing spread chosen for a sampled game in `run_backtest`
(`scripts/backtest.py`), together with the updated cache and counters:
a real historical spread if one exists, else the cached estimate, else a
fresh estimate from the two pre-game Elos (which is then cached). -/
noncomputable def choose_spread (historical_spreads : String → Option ℝ)
    (s : BacktestState) (game : Game) : ℝ × BacktestState :=
  let matchup_key := game.away_abbrev ++ "@" ++ game.home_abbrev
  match historical_spreads matchup_key with
  | some sp => (sp, { s with real_spreads := s.real_spreads + 1 })
  | none =>
    match s.spread_cache matchup_key with
    | some sp => (sp, { s with estimated_spreads := s.estimated_spreads + 1 })
    | none =>
      let sp := estimate_spread_from_teams
        (s.team_states game.home_team_id).get_elo
        (s.team_states game.away_team_id).get_elo
      (sp,
       { s with
         spread_cache := fun k =>
           if k = matchup_key then some sp else s.spread_cache k
         estimated_spreads := s.estimated_spreads + 1 })

/-- The `BacktestResult` record built for a sampled game in `run_backtest`
(`scripts/backtest.py`), reading only the two pre-game `TeamState` values
and the chosen closing spread. -/
noncomputable def make_result (home_state away_state : TeamState)
    (closing_spread : ℝ) (game : Game) : BacktestResult :=
  let p := predict_spread home_state away_state
  let predicted_margin := p.1
  let elo_comp := p.2.1
  let nr_comp := p.2.2
  let actual_margin := game.home_pts - game.away_pts
  let actual_winner : String :=
    if 0 < actual_margin then "home"
    else if actual_margin < 0 then "away" else "tie"
  let predicted_winner : String :=
    if 0 < predicted_margin then "home"
    else if predicted_margin < 0 then "away" else "tie"
  let margin_vs_spread := (actual_margin : ℝ) + closing_spread
  let actual_ats : String :=
    if |margin_vs_spread| < 0.5 then "push"
    else if 0 < margin_vs_spread then "home" else "away"
  let predicted_vs_spread := predicted_margin + closing_spread
  let predicted_ats : String :=
    if |predicted_vs_spread| < 0.5 then "push"
    else if 0 < predicted_vs_spread then "home" else "away"
  { game_id := game.game_id
    date := game.date
    home_team := game.home_abbrev
    away_team := game.away_abbrev
    home_score := game.home_pts
    away_score := game.away_pts
    actual_margin := actual_margin
    closing_spread := round1 closing_spread
    predicted_margin := round1 predicted_margin
    elo_component := round1 elo_comp
    nr_component := round1 nr_comp
    actual_winner := actual_winner
    predicted_winner := predicted_winner
    winner_correct := actual_winner == predicted_winner
    actual_ats := actual_ats
    predicted_ats := predicted_ats
    ats_correct := actual_ats == predicted_ats || actual_ats == "push"
    margin_error := |predicted_margin - (actual_margin : ℝ)|
    spread_error := |predicted_margin - -closing_spread| }

/-- The update of one team's `TeamState` at the end of a loop iteration of
`run_backtest` (`scripts/backtest.py`): record win/loss and points, append
the game's net rating, and reassign `games = games[-15:]` when the list
exceeds 15 entries. -/
def fold_team (ts : TeamState) (won : Bool) (pts_for pts_against : ℤ) :
    TeamState :=
  let games' := ts.games ++ [⟨pts_for, pts_against, pts_for - pts_against⟩]
  { ts with
    wins := ts.wins + if won then 1 else 0
    losses := ts.losses + if won then 0 else 1
    total_points_for := ts.total_points_for + pts_for
    total_points_against := ts.total_points_against + pts_against
    games := if 15 < games'.length then games'.drop (games'.length - 15)
             else games' }

/-- One iteration of the game loop of `run_backtest` in
`scripts/backtest.py`: for a sampled game, first choose the closing spread
and record the prediction from the pre-game states; then (for every game)
fold the actual result into both `TeamState` values.  `sampled` stands for
the membership test `game in sampled_games` on the random sample, and
`historical_spreads` for the odds fetched before the loop. -/
noncomputable def step (historical_spreads : String → Option ℝ)
    (sampled : Game → Bool) (s : BacktestState) (game : Game) :
    BacktestState :=
  let home_id := game.home_team_id
  let away_id := game.away_team_id
  let home_state := s.team_states home_id
  let away_state := s.team_states away_id
  let s1 :=
    if sampled game then
      let chosen := choose_spread historical_spreads s game
      let result := make_result home_state away_state chosen.1 game
      { chosen.2 with results := chosen.2.results ++ [result] }
    else s
  let home_won : Bool := game.away_pts < game.home_pts
  let home_state' := fold_team home_state home_won game.home_pts game.away_pts
  let away_state' := fold_team away_state (!home_won) game.away_pts game.home_pts
  { s1 with team_states := fun t =>
      if t = home_id then home_state'
      else if t = away_id then away_state'
      else s1.team_states t }

/-- The initial loop state of `run_backtest` in `scripts/backtest.py`:
empty team states (created lazily by the source, equivalently a total map
into default states), empty spread cache, no results, zeroed counters. -/
def initial_state : BacktestState :=
  { team_states := fun id =>
      { team_id := id, team_name := "", wins := 0, losses := 0,
        total_points_for := 0, total_points_against := 0, games := [] }
    spread_cache := fun _ => none
    results := []
    real_spreads := 0
    estimated_spreads := 0 }

/-- Embedding of the chronological replay loop of `run_backtest` in
`scripts/backtest.py` over the date-sorted `complete_games` list. -/
noncomputable def run_backtest (historical_spreads : String → Option ℝ)
    (sampled : Game → Bool) (games : List Game) : BacktestState :=
  games.foldl (step historical_spreads sampled) initial_state

/-- The results emitted by one loop iteration of `run_backtest`
(`scripts/backtest.py`): the single record built from the two pre-game
`TeamState` values when the game is in the sample, nothing otherwise. -/
noncomputable def emitted (historical_spreads : String → Option ℝ)
    (sampled : Game → Bool) (s : BacktestState) (game : Game) :
    List BacktestResult :=
  if sampled game then
    [make_result (s.team_states game.home_team_id)
      (s.team_states game.away_team_id)
      (choose_spread historical_spreads s game).1 game]
  else []

end Backtest

namespace TrackPredictions

/-- Model parameter from `scripts/track_predictions.py`. -/
def ELO_INITIAL : ℝ := 1500

/-- The win-percentage Elo component computed inline in `calculate_elo`
(`scripts/track_predictions.py`); textually identical to the component in
`scripts/backtest.py`. -/
noncomputable def elo_from_win_pct (win_pct : ℝ) : ℝ :=
  if win_pct ≤ 0 then 1200
  else if 1 ≤ win_pct then 1800
  else 1504.6 - 450 * Real.logb 10 (1 / win_pct - 1)

/-- Embedding of `calculate_elo` from `scripts/track_predictions.py`. -/
noncomputable def calculate_elo (wins losses : ℕ) (net_rating : ℝ) : ℝ :=
  let games := wins + losses
  if games = 0 then ELO_INITIAL
  else
    let win_pct : ℝ := (wins : ℝ) / (games : ℝ)
    let elo_from_win_pct := elo_from_win_pct win_pct
    let elo_from_nr := ELO_INITIAL + net_rating * 10
    let win_pct_weight := max 0.3 (1 - (games : ℝ) / 82)
    win_pct_weight * elo_from_win_pct + (1 - win_pct_weight) * elo_from_nr

end TrackPredictions

/-- Claim C5: for every win probability in `[0, 1]` and decimal odds
greater than 1, `kelly_criterion` returns exactly 0 when the probability
is at most the odds-implied probability `1/odds`, and otherwise a strictly
positive stake of at most `0.5` (half of the full Kelly value, which
itself never exceeds 1). -/
theorem kelly_half_kelly_bounds (win_prob odds : ℚ)
    (h0 : 0 ≤ win_prob) (h1 : win_prob ≤ 1) (ho : 1 < odds) :
    (win_prob ≤ 1 / odds → BuzzingRigorous.kelly_criterion win_prob odds = 0) ∧
    (1 / odds < win_prob →
      0 < BuzzingRigorous.kelly_criterion win_prob odds ∧
      BuzzingRigorous.kelly_criterion win_prob odds ≤ 0.5 ∧
      ((odds - 1) * win_prob - (1 - win_prob)) / (odds - 1) ≤ 1) := by
  have hodds : (0 : ℚ) < odds := by linarith
  have hb : (0 : ℚ) < odds - 1 := by linarith
  constructor
  · intro hle
    simp only [BuzzingRigorous.kelly_criterion]
    rw [if_pos (by linarith)]
  · intro hlt
    have hmul : 1 < odds * win_prob := by
      have := mul_lt_mul_of_pos_left hlt hodds
      rwa [mul_one_div_cancel (ne_of_gt hodds)] at this
    have hnum : 0 < (odds - 1) * win_prob - (1 - win_prob) := by nlinarith
    have hkelly : 0 < ((odds - 1) * win_prob - (1 - win_prob)) / (odds - 1) :=
      div_pos hnum hb
    have hkelly1 : ((odds - 1) * win_prob - (1 - win_prob)) / (odds - 1) ≤ 1 :=
      (div_le_one hb).mpr (by nlinarith)
    have hval : BuzzingRigorous.kelly_criterion win_prob odds =
        ((odds - 1) * win_prob - (1 - win_prob)) / (odds - 1) / 2 := by
      simp only [BuzzingRigorous.kelly_criterion]
      rw [if_neg (by linarith), max_eq_right (by linarith)]
    refine ⟨by rw [hval]; linarith, by rw [hval]; norm_num; linarith, hkelly1⟩

/-- Witness for claim C5 at `win_prob = 3/5`, `odds = 2`. -/
theorem kelly_half_kelly_bounds_witness :
    (0 ≤ (3/5 : ℚ) ∧ (3/5 : ℚ) ≤ 1 ∧ (1 : ℚ) < 2) ∧
    (((3/5 : ℚ) ≤ 1 / 2 → BuzzingRigorous.kelly_criterion (3/5) 2 = 0) ∧
     (1 / 2 < (3/5 : ℚ) →
       0 < BuzzingRigorous.kelly_criterion (3/5) 2 ∧
       BuzzingRigorous.kelly_criterion (3/5) 2 ≤ 0.5 ∧
       ((2 - 1) * (3/5 : ℚ) - (1 - 3/5)) / (2 - 1) ≤ 1)) :=
  ⟨⟨by norm_num, by norm_num, by norm_num⟩,
   kelly_half_kelly_bounds (3/5) 2 (by norm_num) (by norm_num) (by norm_num)⟩

/-- Claim C10: `kelly_criterion` is total on probabilities in `[0, 1]` and
any positive odds: for odds at most 1 the odds-implied probability is at
least 1, the edge is non-positive and the early return yields 0, so the
division by `odds - 1` is only ever reached with `odds > 1`. -/
theorem kelly_guard_covers_low_odds (win_prob odds : ℚ)
    (h0 : 0 ≤ win_prob) (h1 : win_prob ≤ 1) (hpos : 0 < odds) :
    (odds ≤ 1 → BuzzingRigorous.kelly_criterion win_prob odds = 0) ∧
    (¬ win_prob - 1 / odds ≤ 0 → 1 < odds) := by
  constructor
  · intro hle
    have himp : 1 ≤ 1 / odds := by
      rw [le_div_iff hpos]
      linarith
    simp only [BuzzingRigorous.kelly_criterion]
    rw [if_pos (by linarith)]
  · intro hedge
    by_contra hno
    push_neg at hno
    have himp : 1 ≤ 1 / odds := by
      rw [le_div_iff hpos]
      linarith
    exact hedge (by linarith)

/-- Witness for claim C10 at `win_prob = 1`, `odds = 1/2`. -/
theorem kelly_guard_covers_low_odds_witness :
    (0 ≤ (1 : ℚ) ∧ (1 : ℚ) ≤ 1 ∧ (0 : ℚ) < 1/2) ∧
    (((1/2 : ℚ) ≤ 1 → BuzzingRigorous.kelly_criterion 1 (1/2) = 0) ∧
     (¬ (1 : ℚ) - 1 / (1/2) ≤ 0 → 1 < (1/2 : ℚ))) :=
  ⟨⟨by norm_num, by norm_num, by norm_num⟩,
   kelly_guard_covers_low_odds 1 (1/2) (by norm_num) (by norm_num) (by norm_num)⟩

/-- The Elo shift of `update_elo` (`scripts/backtest_model.py`) is
strictly positive for every input: the margin-of-victory multiplier has a
positive base and denominator, and the expected win probability is
strictly below 1. -/
lemma elo_shift_pos (winner_elo loser_elo : ℝ) (margin : ℤ)
    (winner_home : Bool) :
    0 < BacktestModel.elo_shift winner_elo loser_elo margin winner_home := by
  have key : ∀ d : ℝ, 0 < BacktestModel.ELO_K_FACTOR *
      ((|(margin : ℝ)| + 3) ^ (0.8 : ℝ) / (7.5 + 0.006 * |d|)) *
      (1 - BacktestModel.elo_win_probability d) := by
    intro d
    have hexp : (0 : ℝ) < (10 : ℝ) ^ (-d / 400) :=
      Real.rpow_pos_of_pos (by norm_num) _
    have hlt : BacktestModel.elo_win_probability d < 1 := by
      unfold BacktestModel.elo_win_probability
      rw [div_lt_one (by linarith)]
      linarith
    have hpow : (0 : ℝ) < (|(margin : ℝ)| + 3) ^ (0.8 : ℝ) :=
      Real.rpow_pos_of_pos (by positivity) _
    have hden : (0 : ℝ) < 7.5 + 0.006 * |d| := by positivity
    have hK : (0 : ℝ) < BacktestModel.ELO_K_FACTOR := by
      norm_num [BacktestModel.ELO_K_FACTOR]
    exact mul_pos (mul_pos hK (div_pos hpow hden)) (by linarith)
  simp only [BacktestModel.elo_shift]
  exact key _

/-- Claim C3: every Elo update of `scripts/backtest_model.py` returns
`(winner + s, loser - s)` for the single strictly positive shift
`s = K * ((|margin| + 3)^0.8 / (7.5 + 0.006*|elo_diff|)) * (1 - expected)`,
so the rating sum is preserved and the winner strictly gains exactly what
the loser strictly loses. -/
theorem update_elo_zero_sum (winner_elo loser_elo : ℝ) (margin : ℤ)
    (winner_home : Bool) :
    BacktestModel.update_elo winner_elo loser_elo margin winner_home =
      (winner_elo + BacktestModel.elo_shift winner_elo loser_elo margin winner_home,
       loser_elo - BacktestModel.elo_shift winner_elo loser_elo margin winner_home) ∧
    0 < BacktestModel.elo_shift winner_elo loser_elo margin winner_home ∧
    (BacktestModel.update_elo winner_elo loser_elo margin winner_home).1 +
        (BacktestModel.update_elo winner_elo loser_elo margin winner_home).2 =
      winner_elo + loser_elo ∧
    winner_elo <
      (BacktestModel.update_elo winner_elo loser_elo margin winner_home).1 ∧
    (BacktestModel.update_elo winner_elo loser_elo margin winner_home).2 <
      loser_elo ∧
    BacktestModel.elo_shift winner_elo loser_elo margin winner_home =
      BacktestModel.ELO_K_FACTOR *
        ((|(margin : ℝ)| + 3) ^ (0.8 : ℝ) /
          (7.5 + 0.006 *
            |if winner_home then
                winner_elo - loser_elo + BacktestModel.ELO_HOME_ADVANTAGE
              else winner_elo - loser_elo - BacktestModel.ELO_HOME_ADVANTAGE|)) *
        (1 - BacktestModel.elo_win_probability
          (if winner_home then
              winner_elo - loser_elo + BacktestModel.ELO_HOME_ADVANTAGE
            else winner_elo - loser_elo - BacktestModel.ELO_HOME_ADVANTAGE)) := by
  have hpos := elo_shift_pos winner_elo loser_elo margin winner_home
  refine ⟨rfl, hpos, ?_, ?_, ?_, ?_⟩
  · simp only [BacktestModel.update_elo]
    ring
  · simp only [BacktestModel.update_elo]
    linarith
  · simp only [BacktestModel.update_elo]
    linarith
  · simp only [BacktestModel.elo_shift]

/-- The two textually identical inline win-percentage components of
`scripts/backtest.py` and `scripts/track_predictions.py` are the same
function. -/
lemma elo_from_win_pct_same :
    TrackPredictions.elo_from_win_pct = Backtest.elo_from_win_pct := rfl

/-- Claim C7: for `wins + losses > 0` the win-percentage Elo component
(in both `scripts/backtest.py` and `scripts/track_predictions.py`) is
exactly 1200 at a 0% record, exactly 1800 at a 100% record, and
`1504.6 - 450*log10(1/win_pct - 1)` strictly in between; the boundary
branches return the clamped constants without the logarithm. -/
theorem elo_from_win_pct_branches (wins losses : ℕ) (hpos : 0 < wins + losses) :
    (wins = 0 →
      Backtest.elo_from_win_pct ((wins : ℝ) / ((wins : ℝ) + (losses : ℝ))) = 1200 ∧
      TrackPredictions.elo_from_win_pct
        ((wins : ℝ) / ((wins : ℝ) + (losses : ℝ))) = 1200) ∧
    (losses = 0 →
      Backtest.elo_from_win_pct ((wins : ℝ) / ((wins : ℝ) + (losses : ℝ))) = 1800 ∧
      TrackPredictions.elo_from_win_pct
        ((wins : ℝ) / ((wins : ℝ) + (losses : ℝ))) = 1800) ∧
    (0 < wins → 0 < losses →
      Backtest.elo_from_win_pct ((wins : ℝ) / ((wins : ℝ) + (losses : ℝ))) =
        1504.6 - 450 * Real.logb 10
          (1 / ((wins : ℝ) / ((wins : ℝ) + (losses : ℝ))) - 1) ∧
      TrackPredictions.elo_from_win_pct
          ((wins : ℝ) / ((wins : ℝ) + (losses : ℝ))) =
        1504.6 - 450 * Real.logb 10
          (1 / ((wins : ℝ) / ((wins : ℝ) + (losses : ℝ))) - 1)) := by
  rw [elo_from_win_pct_same]
  refine ⟨?_, ?_, ?_⟩
  · intro hw
    have : (wins : ℝ) / ((wins : ℝ) + (losses : ℝ)) = 0 := by
      rw [hw]; simp
    rw [this]
    constructor <;> · unfold Backtest.elo_from_win_pct; norm_num
  · intro hl
    have hw : 0 < wins := by omega
    have hw' : ((wins : ℝ)) ≠ 0 := by positivity
    have : (wins : ℝ) / ((wins : ℝ) + (losses : ℝ)) = 1 := by
      rw [hl]; push_cast; rw [add_zero, div_self hw']
    rw [this]
    constructor <;> · unfold Backtest.elo_from_win_pct; norm_num
  · intro hw hl
    have hwR : (0 : ℝ) < (wins : ℝ) := by exact_mod_cast hw
    have hsum : (0 : ℝ) < (wins : ℝ) + (losses : ℝ) := by positivity
    have hp0 : 0 < (wins : ℝ) / ((wins : ℝ) + (losses : ℝ)) :=
      div_pos hwR hsum
    have hp1 : (wins : ℝ) / ((wins : ℝ) + (losses : ℝ)) < 1 := by
      rw [div_lt_one hsum]
      have : (0 : ℝ) < (losses : ℝ) := by exact_mod_cast hl
      linarith
    constructor <;>
      · unfold Backtest.elo_from_win_pct
        rw [if_neg (not_le.mpr hp0), if_neg (not_le.mpr hp1)]

/-- Witness for claim C7 at a 1-1 record. -/
theorem elo_from_win_pct_branches_witness :
    0 < 1 + 1 ∧
    ((1 = 0 →
      Backtest.elo_from_win_pct (((1 : ℕ) : ℝ) / (((1 : ℕ) : ℝ) + ((1 : ℕ) : ℝ))) = 1200 ∧
      TrackPredictions.elo_from_win_pct
        (((1 : ℕ) : ℝ) / (((1 : ℕ) : ℝ) + ((1 : ℕ) : ℝ))) = 1200) ∧
    (1 = 0 →
      Backtest.elo_from_win_pct (((1 : ℕ) : ℝ) / (((1 : ℕ) : ℝ) + ((1 : ℕ) : ℝ))) = 1800 ∧
      TrackPredictions.elo_from_win_pct
        (((1 : ℕ) : ℝ) / (((1 : ℕ) : ℝ) + ((1 : ℕ) : ℝ))) = 1800) ∧
    (0 < 1 → 0 < 1 →
      Backtest.elo_from_win_pct (((1 : ℕ) : ℝ) / (((1 : ℕ) : ℝ) + ((1 : ℕ) : ℝ))) =
        1504.6 - 450 * Real.logb 10
          (1 / (((1 : ℕ) : ℝ) / (((1 : ℕ) : ℝ) + ((1 : ℕ) : ℝ))) - 1) ∧
      TrackPredictions.elo_from_win_pct
          (((1 : ℕ) : ℝ) / (((1 : ℕ) : ℝ) + ((1 : ℕ) : ℝ))) =
        1504.6 - 450 * Real.logb 10
          (1 / (((1 : ℕ) : ℝ) / (((1 : ℕ) : ℝ) + ((1 : ℕ) : ℝ))) - 1))) :=
  ⟨by norm_num, elo_from_win_pct_branches 1 1 (by norm_num)⟩

/-- Core estimate behind the Wilson bracketing: the distance term
`z*|1/2 - p|/n` is dominated by the square root of the Wilson radicand. -/
lemma wilson_radicand_bound (n z p : ℝ) (hn : 0 < n) (hz : 0 ≤ z)
    (hp0 : 0 ≤ p) (hp1 : p ≤ 1) :
    z * |1 / 2 - p| / n ≤ Real.sqrt (p * (1 - p) / n + z ^ 2 / (4 * n ^ 2)) := by
  apply Real.le_sqrt_of_sq_le
  have hq : 0 ≤ p * (1 - p) := mul_nonneg hp0 (by linarith)
  have h1 : (z * |1 / 2 - p| / n) ^ 2 =
      z ^ 2 / n ^ 2 * (1 / 4 - p * (1 - p)) := by
    rw [div_pow, mul_pow, sq_abs]
    ring
  rw [h1]
  have h2 : z ^ 2 / n ^ 2 * (1 / 4 - p * (1 - p)) ≤ z ^ 2 / n ^ 2 * (1 / 4) :=
    mul_le_mul_of_nonneg_left (by linarith) (by positivity)
  have h3 : z ^ 2 / n ^ 2 * (1 / 4) = z ^ 2 / (4 * n ^ 2) := by ring
  have h4 : 0 ≤ p * (1 - p) / n := by positivity
  linarith

/-- Claim C4: `wilson_confidence_interval` returns exactly `(0, 1)` for
zero trials, and for `successes ≤ trials` with `trials > 0` its bounds
bracket the observed rate inside `[0, 1]`:
`0 ≤ lower ≤ successes/trials ≤ upper ≤ 1`. -/
theorem wilson_interval_brackets (successes trials : ℕ) (z : ℝ)
    (hz : 0 ≤ z) (hst : successes ≤ trials) :
    (trials = 0 →
      BuzzingRigorous.wilson_confidence_interval successes trials z = (0, 1)) ∧
    (0 < trials →
      0 ≤ (BuzzingRigorous.wilson_confidence_interval successes trials z).1 ∧
      (BuzzingRigorous.wilson_confidence_interval successes trials z).1 ≤
        (successes : ℝ) / (trials : ℝ) ∧
      (successes : ℝ) / (trials : ℝ) ≤
        (BuzzingRigorous.wilson_confidence_interval successes trials z).2 ∧
      (BuzzingRigorous.wilson_confidence_interval successes trials z).2 ≤ 1) := by
  constructor
  · intro h0
    norm_num [BuzzingRigorous.wilson_confidence_interval, h0]
  · intro htr
    have hn : (0 : ℝ) < (trials : ℝ) := by exact_mod_cast htr
    have hw : BuzzingRigorous.wilson_confidence_interval successes trials z =
        (max 0 (((successes : ℝ) / (trials : ℝ) + z ^ 2 / (2 * (trials : ℝ))) /
            (1 + z ^ 2 / (trials : ℝ)) -
          (z / (1 + z ^ 2 / (trials : ℝ))) *
            Real.sqrt ((successes : ℝ) / (trials : ℝ) *
                (1 - (successes : ℝ) / (trials : ℝ)) / (trials : ℝ) +
              z ^ 2 / (4 * (trials : ℝ) ^ 2))),
         min 1 (((successes : ℝ) / (trials : ℝ) + z ^ 2 / (2 * (trials : ℝ))) /
            (1 + z ^ 2 / (trials : ℝ)) +
          (z / (1 + z ^ 2 / (trials : ℝ))) *
            Real.sqrt ((successes : ℝ) / (trials : ℝ) *
                (1 - (successes : ℝ) / (trials : ℝ)) / (trials : ℝ) +
              z ^ 2 / (4 * (trials : ℝ) ^ 2)))) := by
      simp only [BuzzingRigorous.wilson_confidence_interval, if_neg htr.ne']
    rw [hw]
    set p : ℝ := (successes : ℝ) / (trials : ℝ) with hp
    have hp0 : 0 ≤ p := by positivity
    have hp1 : p ≤ 1 := by
      rw [hp, div_le_one hn]
      exact_mod_cast hst
    set d : ℝ := 1 + z ^ 2 / (trials : ℝ) with hd
    have hdpos : 0 < d := by positivity
    set E : ℝ := p * (1 - p) / (trials : ℝ) + z ^ 2 / (4 * (trials : ℝ) ^ 2)
      with hE
    have hEnn : 0 ≤ E := by
      have hpl : 0 ≤ p * (1 - p) := mul_nonneg hp0 (by linarith)
      positivity
    set c : ℝ := (p + z ^ 2 / (2 * (trials : ℝ))) / d with hc
    set m : ℝ := (z / d) * Real.sqrt E with hm
    have hsq : 0 ≤ Real.sqrt E := Real.sqrt_nonneg _
    have hm0 : 0 ≤ m := by positivity
    have hcp : c - p = z ^ 2 / (trials : ℝ) * (1 / 2 - p) / d := by
      rw [hc, hd]
      field_simp
      ring
    have hB : z * |1 / 2 - p| / (trials : ℝ) ≤ Real.sqrt E := by
      rw [hE]
      exact wilson_radicand_bound (trials : ℝ) z p hn hz hp0 hp1
    have habs : |c - p| ≤ m := by
      rw [hcp, hm]
      have h1 : |z ^ 2 / (trials : ℝ) * (1 / 2 - p) / d| =
          z ^ 2 / (trials : ℝ) * |1 / 2 - p| / d := by
        rw [abs_div, abs_mul, abs_of_nonneg (by positivity : (0 : ℝ) ≤ z ^ 2 / (trials : ℝ)),
          abs_of_pos hdpos]
      have h2 : z ^ 2 / (trials : ℝ) * |1 / 2 - p| / d =
          z * (z * |1 / 2 - p| / (trials : ℝ)) / d := by ring
      have h3 : z / d * Real.sqrt E = z * Real.sqrt E / d := by ring
      rw [h1, h2, h3, div_le_div_iff hdpos hdpos]
      exact mul_le_mul_of_nonneg_right
        (mul_le_mul_of_nonneg_left hB hz) hdpos.le
    refine ⟨le_max_left _ _, ?_, ?_, min_le_left _ _⟩
    · apply max_le hp0
      have := abs_le.mp habs
      linarith [this.1]
    · apply le_min hp1
      have := abs_le.mp habs
      linarith [this.2]

/-- Witness for claim C4 at `successes = 1`, `trials = 2`, `z = 1.96`. -/
theorem wilson_interval_brackets_witness :
    (0 ≤ (1.96 : ℝ) ∧ 1 ≤ 2) ∧
    ((2 = 0 →
      BuzzingRigorous.wilson_confidence_interval 1 2 1.96 = (0, 1)) ∧
    (0 < 2 →
      0 ≤ (BuzzingRigorous.wilson_confidence_interval 1 2 1.96).1 ∧
      (BuzzingRigorous.wilson_confidence_interval 1 2 1.96).1 ≤
        ((1 : ℕ) : ℝ) / ((2 : ℕ) : ℝ) ∧
      ((1 : ℕ) : ℝ) / ((2 : ℕ) : ℝ) ≤
        (BuzzingRigorous.wilson_confidence_interval 1 2 1.96).2 ∧
      (BuzzingRigorous.wilson_confidence_interval 1 2 1.96).2 ≤ 1)) :=
  ⟨⟨by norm_num, by norm_num⟩,
   wilson_interval_brackets 1 2 1.96 (by norm_num) (by norm_num)⟩

/-- Claim C2 (amended part): the league-wide predictor `predict_margin` of
`scripts/backtest_league.py` always returns a value in `[-15, 15]`,
however extreme its inputs. -/
theorem predict_margin_clamped (home away : BacktestLeague.TeamStats) :
    -15 ≤ BacktestLeague.predict_margin home away ∧
    BacktestLeague.predict_margin home away ≤ 15 := by
  unfold BacktestLeague.predict_margin
  exact ⟨le_max_left _ _, max_le (by norm_num) (min_le_left _ _)⟩

/-- Claim C9 (amended): the pace correction of `predict_margin`
(`scripts/backtest_league.py`) multiplies the running prediction by
exactly `1 - max(0, (home_pace + away_pace - 200) * 0.02)`, and this is
damping whenever the combined pace is at most 300; beyond that the
multiplier drops below -1 and can magnify. -/
theorem pace_correction_damps (home away : BacktestLeague.TeamStats) :
    BacktestLeague.predict_margin home away =
      max (-15) (min 15 (BacktestLeague.base_prediction home away *
        (1 - max 0 ((home.pace + away.pace - 200) * 0.02)))) ∧
    (home.pace + away.pace ≤ 300 →
      |BacktestLeague.base_prediction home away *
          BacktestLeague.pace_multiplier home away| ≤
        |BacktestLeague.base_prediction home away|) := by
  constructor
  · simp [BacktestLeague.predict_margin, BacktestLeague.pace_multiplier]
  · intro hpace
    have hub : BacktestLeague.pace_multiplier home away ≤ 1 := by
      simp only [BacktestLeague.pace_multiplier]
      have : (0 : ℚ) ≤ max 0 ((home.pace + away.pace - 200) * 0.02) :=
        le_max_left _ _
      linarith
    have hlb : -1 ≤ BacktestLeague.pace_multiplier home away := by
      simp only [BacktestLeague.pace_multiplier]
      have : max 0 ((home.pace + away.pace - 200) * 0.02) ≤ 2 :=
        max_le (by norm_num) (by nlinarith)
      linarith
    rw [abs_mul]
    exact mul_le_of_le_one_right (abs_nonneg _) (abs_le.mpr ⟨hlb, hub⟩)

/-- Witness for claim C9 at two average-pace teams. -/
theorem pace_correction_damps_witness :
    (BacktestLeague.predict_margin ⟨5, 100⟩ ⟨0, 100⟩ =
      max (-15) (min 15 (BacktestLeague.base_prediction ⟨5, 100⟩ ⟨0, 100⟩ *
        (1 - max 0 (((⟨5, 100⟩ : BacktestLeague.TeamStats).pace +
          (⟨0, 100⟩ : BacktestLeague.TeamStats).pace - 200) * 0.02)))) ∧
    ((⟨5, 100⟩ : BacktestLeague.TeamStats).pace +
        (⟨0, 100⟩ : BacktestLeague.TeamStats).pace ≤ 300 →
      |BacktestLeague.base_prediction ⟨5, 100⟩ ⟨0, 100⟩ *
          BacktestLeague.pace_multiplier ⟨5, 100⟩ ⟨0, 100⟩| ≤
        |BacktestLeague.base_prediction ⟨5, 100⟩ ⟨0, 100⟩|)) ∧
    BacktestLeague.pace_multiplier ⟨5, 100⟩ ⟨0, 100⟩ = 1 :=
  ⟨pace_correction_damps ⟨5, 100⟩ ⟨0, 100⟩,
   by norm_num [BacktestLeague.pace_multiplier]⟩

/-- The per-team fold of `run_backtest` in `scripts/backtest.py` always
leaves at most 15 entries in the recent-game list. -/
lemma fold_team_games_le (ts : Backtest.TeamState) (won : Bool)
    (pf pa : ℤ) : (Backtest.fold_team ts won pf pa).games.length ≤ 15 := by
  simp only [Backtest.fold_team]
  split
  · rw [List.length_drop]
    omega
  · omega

/-- `choose_spread` (`scripts/backtest.py`) never touches the team states. -/
lemma choose_spread_team_states (historical_spreads : String → Option ℝ)
    (s : Backtest.BacktestState) (game : Backtest.Game) :
    (Backtest.choose_spread historical_spreads s game).2.team_states =
      s.team_states := by
  cases hh : historical_spreads (game.away_abbrev ++ "@" ++ game.home_abbrev) with
  | some sp => simp [Backtest.choose_spread, hh]
  | none =>
    cases hc : s.spread_cache (game.away_abbrev ++ "@" ++ game.home_abbrev) with
    | some sp => simp [Backtest.choose_spread, hh, hc]
    | none => simp [Backtest.choose_spread, hh, hc]

/-- One step of the `scripts/backtest.py` driver preserves the 15-entry
bound on every recent-game list. -/
lemma step_games_le (historical_spreads : String → Option ℝ)
    (sampled : Backtest.Game → Bool) (s : Backtest.BacktestState)
    (game : Backtest.Game)
    (hs : ∀ t, (s.team_states t).games.length ≤ 15) (t : ℕ) :
    ((Backtest.step historical_spreads sampled s game).team_states t).games.length
      ≤ 15 := by
  have hs1 : (if sampled game then
      { (Backtest.choose_spread historical_spreads s game).2 with
        results := (Backtest.choose_spread historical_spreads s game).2.results ++
          [Backtest.make_result (s.team_states game.home_team_id)
            (s.team_states game.away_team_id)
            (Backtest.choose_spread historical_spreads s game).1 game] }
    else s).team_states = s.team_states := by
    split
    · exact choose_spread_team_states historical_spreads s game
    · rfl
  simp only [Backtest.step, hs1]
  split
  · exact fold_team_games_le _ _ _ _
  · split
    · exact fold_team_games_le _ _ _ _
    · exact hs t

/-- Folding any game list through the `scripts/backtest.py` driver
preserves the 15-entry bound on every recent-game list. -/
lemma foldl_games_le (historical_spreads : String → Option ℝ)
    (sampled : Backtest.Game → Bool) :
    ∀ (games : List Backtest.Game) (s : Backtest.BacktestState),
      (∀ t, (s.team_states t).games.length ≤ 15) →
      ∀ t, ((games.foldl (Backtest.step historical_spreads sampled) s).team_states
        t).games.length ≤ 15 := by
  intro games
  induction games with
  | nil => intro s hs t; simpa using hs t
  | cons g gs ih =>
    intro s hs t
    simp only [List.foldl_cons]
    exact ih _ (step_games_le historical_spreads sampled s g hs) t

/-- Claim C6 (amended): throughout any replay of the `scripts/backtest.py`
driver, every team's recent-game window holds at most 15 entries - the
append is followed by a reassignment to the last 15 entries whenever the
bound is exceeded.  (The `scripts/backtest_model.py` driver has no such
cap; see the counterexample.) -/
theorem recent_window_capped (historical_spreads : String → Option ℝ)
    (sampled : Backtest.Game → Bool) (games : List Backtest.Game) (t : ℕ) :
    ((Backtest.run_backtest historical_spreads sampled games).team_states
      t).games.length ≤ 15 :=
  foldl_games_le historical_spreads sampled games Backtest.initial_state
    (fun _ => by simp [Backtest.initial_state]) t

/-- Each driver step of `scripts/backtest_model.py` appends exactly one
entry to the home team's history list. -/
lemma model_step_home_games_length (s : BacktestModel.BacktestState)
    (game : BacktestModel.Game) :
    ((BacktestModel.step s game).team_states game.home_team_id).games.length =
      (s.team_states game.home_team_id).games.length + 1 := by
  simp only [BacktestModel.step]
  split <;> simp

/-- Folding games that all share one home team through the
`scripts/backtest_model.py` driver grows that team's history list by one
entry per game. -/
lemma model_foldl_games_length :
    ∀ (games : List BacktestModel.Game) (x : ℕ),
      (∀ g ∈ games, g.home_team_id = x) →
      ∀ s : BacktestModel.BacktestState,
        ((games.foldl BacktestModel.step s).team_states x).games.length =
          (s.team_states x).games.length + games.length := by
  intro games
  induction games with
  | nil => intro x hx s; simp
  | cons g gs ih =>
    intro x hx s
    simp only [List.foldl_cons, List.length_cons]
    rw [ih x (fun g' hg' => hx g' (List.mem_cons_of_mem _ hg'))]
    have hg := hx g (List.mem_cons_self _ _)
    rw [← hg, model_step_home_games_length]
    omega

/-- Sixteen consecutive games between the same two teams, for exercising
the model driver's history list. -/
def sixteen_games : List BacktestModel.Game :=
  (List.range 16).map (fun (k : ℕ) =>
    { game_id := "", date := (k : ℤ), home_team_id := 0, away_team_id := 1,
      home_team := "", away_team := "", home_score := 102, away_score := 100,
      home_wl := "W" })

/-- Counterexample for claim C6 as stated: the `scripts/backtest_model.py`
driver appends to the recent-game history without evicting, so after 16
games the window holds 16 > 15 entries. -/
theorem model_recent_window_exceeds_cap :
    15 < ((BacktestModel.run_backtest sixteen_games).team_states
      0).games.length := by
  have hall : ∀ g ∈ sixteen_games, g.home_team_id = 0 := by
    intro g hg
    simp only [sixteen_games, List.mem_map] at hg
    obtain ⟨k, _, rfl⟩ := hg
    rfl
  have h := model_foldl_games_length sixteen_games 0 hall
    BacktestModel.initial_state
  have hlen : sixteen_games.length = 16 := by
    rw [sixteen_games, List.length_map, List.length_range]
  rw [BacktestModel.run_backtest, h, hlen]
  simp [BacktestModel.initial_state]

/-- One step of the `scripts/backtest_model.py` driver appends to the
prediction list exactly the records computed from the pre-step team
states. -/
lemma model_step_predictions (s : BacktestModel.BacktestState)
    (game : BacktestModel.Game) :
    (BacktestModel.step s game).predictions =
      s.predictions ++ BacktestModel.emitted s game := by
  simp only [BacktestModel.step, BacktestModel.emitted]
  split
  · simp
  · simp

/-- Predictions already recorded by the `scripts/backtest_model.py` driver
are only ever appended to. -/
lemma model_foldl_predictions :
    ∀ (games : List BacktestModel.Game) (s : BacktestModel.BacktestState),
      ∃ rest, (games.foldl BacktestModel.step s).predictions =
        s.predictions ++ rest := by
  intro games
  induction games with
  | nil => intro s; exact ⟨[], by simp⟩
  | cons g gs ih =>
    intro s
    obtain ⟨rest, hrest⟩ := ih (BacktestModel.step s g)
    refine ⟨BacktestModel.emitted s g ++ rest, ?_⟩
    simp only [List.foldl_cons, hrest, model_step_predictions,
      List.append_assoc]

/-- `choose_spread` (`scripts/backtest.py`) never touches the results
list. -/
lemma choose_spread_results (historical_spreads : String → Option ℝ)
    (s : Backtest.BacktestState) (game : Backtest.Game) :
    (Backtest.choose_spread historical_spreads s game).2.results =
      s.results := by
  cases hh : historical_spreads (game.away_abbrev ++ "@" ++ game.home_abbrev) with
  | some sp => simp [Backtest.choose_spread, hh]
  | none =>
    cases hc : s.spread_cache (game.away_abbrev ++ "@" ++ game.home_abbrev) with
    | some sp => simp [Backtest.choose_spread, hh, hc]
    | none => simp [Backtest.choose_spread, hh, hc]

/-- One step of the `scripts/backtest.py` driver appends to the results
list exactly the record computed from the pre-step team states. -/
lemma backtest_step_results (historical_spreads : String → Option ℝ)
    (sampled : Backtest.Game → Bool) (s : Backtest.BacktestState)
    (game : Backtest.Game) :
    (Backtest.step historical_spreads sampled s game).results =
      s.results ++ Backtest.emitted historical_spreads sampled s game := by
  simp only [Backtest.step, Backtest.emitted]
  split
  · simp [choose_spread_results]
  · simp

/-- Results already recorded by the `scripts/backtest.py` driver are only
ever appended to. -/
lemma backtest_foldl_results (historical_spreads : String → Option ℝ)
    (sampled : Backtest.Game → Bool) :
    ∀ (games : List Backtest.Game) (s : Backtest.BacktestState),
      ∃ rest, (games.foldl (Backtest.step historical_spreads sampled) s).results =
        s.results ++ rest := by
  intro games
  induction games with
  | nil => intro s; exact ⟨[], by simp⟩
  | cons g gs ih =>
    intro s
    obtain ⟨rest, hrest⟩ := ih (Backtest.step historical_spreads sampled s g)
    refine ⟨Backtest.emitted historical_spreads sampled s g ++ rest, ?_⟩
    simp only [List.foldl_cons, hrest, backtest_step_results,
      List.append_assoc]

/-- Claim C1: in both backtest drivers (`scripts/backtest.py` and
`scripts/backtest_model.py`) each loop iteration first emits the
prediction computed from the two pre-step team states (`emitted` reads the
state before the game's result is folded in) and only then folds the
result, so replaying additional later games only appends to the recorded
prediction list, leaving every already-recorded prediction unchanged. -/
theorem backtest_no_lookahead :
    (∀ (s : BacktestModel.BacktestState) (game : BacktestModel.Game),
      (BacktestModel.step s game).predictions =
        s.predictions ++ BacktestModel.emitted s game) ∧
    (∀ games extra : List BacktestModel.Game, ∃ rest,
      (BacktestModel.run_backtest (games ++ extra)).predictions =
        (BacktestModel.run_backtest games).predictions ++ rest) ∧
    (∀ (historical_spreads : String → Option ℝ)
      (sampled : Backtest.Game → Bool) (s : Backtest.BacktestState)
      (game : Backtest.Game),
      (Backtest.step historical_spreads sampled s game).results =
        s.results ++ Backtest.emitted historical_spreads sampled s game) ∧
    (∀ (historical_spreads : String → Option ℝ)
      (sampled : Backtest.Game → Bool) (games extra : List Backtest.Game),
      ∃ rest,
        (Backtest.run_backtest historical_spreads sampled (games ++ extra)).results =
          (Backtest.run_backtest historical_spreads sampled games).results ++ rest) := by
  refine ⟨model_step_predictions, ?_, backtest_step_results, ?_⟩
  · intro games extra
    unfold BacktestModel.run_backtest
    rw [List.foldl_append]
    exact model_foldl_predictions extra _
  · intro historical_spreads sampled games extra
    unfold Backtest.run_backtest
    rw [List.foldl_append]
    exact backtest_foldl_results historical_spreads sampled extra _

/-- A tied game folded by the `scripts/backtest_model.py` driver lands in
the `margin > 0` else-branch: the Elo update is applied with the away team
in the winner role at margin 0. -/
lemma fold_elo_tie (home_elo away_elo : ℝ) :
    BacktestModel.fold_elo home_elo away_elo 0 =
      (home_elo - BacktestModel.elo_shift away_elo home_elo 0 false,
       away_elo + BacktestModel.elo_shift away_elo home_elo 0 false) := by
  simp [BacktestModel.fold_elo, BacktestModel.update_elo]

/-- For a tied game the `scripts/backtest_model.py` driver sets the away
team's Elo to its old value plus the (positive) shift of an away-winner
update at margin 0. -/
lemma model_tie_step_away_elo (s : BacktestModel.BacktestState)
    (game : BacktestModel.Game) (htie : game.home_score = game.away_score)
    (hne : game.home_team_id ≠ game.away_team_id) :
    ((BacktestModel.step s game).team_states game.away_team_id).elo =
      (s.team_states game.away_team_id).elo +
        BacktestModel.elo_shift (s.team_states game.away_team_id).elo
          (s.team_states game.home_team_id).elo 0 false := by
  have hm : game.home_score - game.away_score = 0 := sub_eq_zero_of_eq htie
  have hne' : game.away_team_id ≠ game.home_team_id := fun hh => hne hh.symm
  simp only [BacktestModel.step, hm, fold_elo_tie]
  split
  · simp [hne']
  · simp [hne']

/-- Claim C8 (amended): the `scripts/backtest_model.py` driver neither
rejects nor excludes a tied game; the tie falls through the `margin > 0`
branch and the Elo winner/loser update is applied with the away team as
the winner at margin 0, strictly increasing the away team's Elo. -/
theorem tie_folded_as_away_win (s : BacktestModel.BacktestState)
    (game : BacktestModel.Game) (htie : game.home_score = game.away_score)
    (hne : game.home_team_id ≠ game.away_team_id) :
    ((BacktestModel.step s game).team_states game.away_team_id).elo =
      (s.team_states game.away_team_id).elo +
        BacktestModel.elo_shift (s.team_states game.away_team_id).elo
          (s.team_states game.home_team_id).elo 0 false ∧
    (s.team_states game.away_team_id).elo <
      ((BacktestModel.step s game).team_states game.away_team_id).elo := by
  have key := model_tie_step_away_elo s game htie hne
  refine ⟨key, ?_⟩
  rw [key]
  linarith [elo_shift_pos (s.team_states game.away_team_id).elo
    (s.team_states game.home_team_id).elo 0 false]

/-- A 100-100 tied game between teams 0 and 1. -/
def tie_game : BacktestModel.Game :=
  { game_id := "", date := 0, home_team_id := 0, away_team_id := 1,
    home_team := "", away_team := "", home_score := 100, away_score := 100,
    home_wl := "" }

/-- Witness for claim C8 at a concrete tied game against fresh states. -/
theorem tie_folded_as_away_win_witness :
    (tie_game.home_score = tie_game.away_score ∧
      tie_game.home_team_id ≠ tie_game.away_team_id) ∧
    (((BacktestModel.step BacktestModel.initial_state tie_game).team_states
        tie_game.away_team_id).elo =
      (BacktestModel.initial_state.team_states tie_game.away_team_id).elo +
        BacktestModel.elo_shift
          (BacktestModel.initial_state.team_states tie_game.away_team_id).elo
          (BacktestModel.initial_state.team_states tie_game.home_team_id).elo
          0 false ∧
    (BacktestModel.initial_state.team_states tie_game.away_team_id).elo <
      ((BacktestModel.step BacktestModel.initial_state tie_game).team_states
        tie_game.away_team_id).elo) :=
  ⟨⟨rfl, by decide⟩,
   tie_folded_as_away_win BacktestModel.initial_state tie_game rfl (by decide)⟩

/-- Counterexample for claim C8 as stated: the tied game is folded into
the Elo winner/loser update (away as winner), observably moving the away
team's Elo strictly above its initial value instead of being rejected or
excluded. -/
theorem tie_game_changes_elo :
    BacktestModel.ELO_INITIAL <
      ((BacktestModel.step BacktestModel.initial_state tie_game).team_states
        1).elo := by
  have key := model_tie_step_away_elo BacktestModel.initial_state tie_game
    rfl (by decide)
  have h1 : (BacktestModel.initial_state.team_states
      tie_game.away_team_id).elo = BacktestModel.ELO_INITIAL := rfl
  have hpos := elo_shift_pos
    (BacktestModel.initial_state.team_states tie_game.away_team_id).elo
    (BacktestModel.initial_state.team_states tie_game.home_team_id).elo 0 false
  have : (1 : ℕ) = tie_game.away_team_id := rfl
  rw [this, key]
  rw [h1] at hpos ⊢
  linarith [hpos]

/-- A 10-0 team that outscored its opponents 200-100 in every game, for
evaluating `predict_spread` at an extreme input. -/
def blowout_home : Backtest.TeamState :=
  { team_id := 0, team_name := "", wins := 10, losses := 0,
    total_points_for := 2000, total_points_against := 1000,
    games := [⟨200, 100, 100⟩, ⟨200, 100, 100⟩, ⟨200, 100, 100⟩,
      ⟨200, 100, 100⟩, ⟨200, 100, 100⟩, ⟨200, 100, 100⟩, ⟨200, 100, 100⟩,
      ⟨200, 100, 100⟩, ⟨200, 100, 100⟩, ⟨200, 100, 100⟩] }

/-- A 0-10 team that was outscored 100-200 in every game. -/
def blowout_away : Backtest.TeamState :=
  { team_id := 1, team_name := "", wins := 0, losses := 10,
    total_points_for := 1000, total_points_against := 2000,
    games := [⟨100, 200, -100⟩, ⟨100, 200, -100⟩, ⟨100, 200, -100⟩,
      ⟨100, 200, -100⟩, ⟨100, 200, -100⟩, ⟨100, 200, -100⟩,
      ⟨100, 200, -100⟩, ⟨100, 200, -100⟩, ⟨100, 200, -100⟩,
      ⟨100, 200, -100⟩] }

/-- Counterexample for claim C2 as stated: `predict_spread` in
`scripts/backtest.py` applies no clamp, and at an extreme (but
well-formed) pair of team states its predicted margin exceeds 15. -/
theorem predict_spread_exceeds_clamp :
    15 < (Backtest.predict_spread blowout_home blowout_away).1 := by
  norm_num [Backtest.predict_spread, Backtest.TeamState.get_elo,
    Backtest.elo_from_win_pct, Backtest.TeamState.get_rolling_net_rating,
    Backtest.TeamState.net_rating, Backtest.TeamState.point_diff,
    blowout_home, blowout_away, Backtest.ELO_INITIAL,
    Backtest.ELO_HOME_ADVANTAGE, Backtest.ELO_TO_SPREAD,
    Backtest.NR_HOME_ADVANTAGE, Backtest.ELO_WEIGHT, Backtest.NR_WEIGHT,
    Backtest.W_LAST4, Backtest.W_LAST7, Backtest.W_LAST10,
    Backtest.W_SEASON, max_def]

/-- Counterexample for claim C9 as stated: at combined pace 320 the pace
multiplier is `-1.4`, so the corrected prediction's absolute value
(`17.5`) exceeds the uncorrected one (`12.5`). -/
theorem pace_correction_magnifies_at_320 :
    |BacktestLeague.base_prediction ⟨10, 160⟩ ⟨0, 160⟩| <
      |BacktestLeague.base_prediction ⟨10, 160⟩ ⟨0, 160⟩ *
        BacktestLeague.pace_multiplier ⟨10, 160⟩ ⟨0, 160⟩| := by
  norm_num [BacktestLeague.base_prediction, BacktestLeague.pace_multiplier]
  rw [abs_of_nonneg (by norm_num : (0 : ℚ) ≤ 25 / 2),
    abs_of_nonneg (by norm_num : (0 : ℚ) ≤ 35 / 2)]
  norm_num

